import Mathlib

set_option synthInstance.maxHeartbeats 400000
set_option maxHeartbeats 1000000

/-
Verification development for the Code-Debugger-NLP repository
(backend/recommendation_engine_v3.py).

The Python source is shallowly embedded below:
  * regular-expression patterns are embedded as `RE` values interpreted by a
    backtracking matcher `reMatch`/`searchG` that mirrors Python `re.search`
    semantics on the fragment of regex syntax the source uses (literals,
    single-character classes with greedy `+`/`*`, capturing groups, and the
    MULTILINE `$` anchor); `.` does not match a newline, and the
    case-insensitive flag is modelled for ASCII input (the source only ever
    feeds it ASCII error logs);
  * Python dicts whose keys are the regex strings are embedded as association
    lists built with Python insertion/overwrite semantics (`pyDictInsert`),
    because the source's `error_patterns` dict contains duplicate keys;
  * every analyzer method of the source becomes a Lean function of the same
    shape (strip, split, slice, substring containment all reimplemented to
    match the Python string operations on ASCII text).
-/

/-! ### Python-style string primitives -/

/-- Character class of Python's default whitespace (`str.strip`, regex `\s`),
restricted to ASCII. -/
def spaceChar (c : Char) : Bool :=
  c == ' ' || c == '\t' || c == '\n' || c == '\r' || c == '\x0b' || c == '\x0c'

/-- Regex `\w` (ASCII fragment): letters, digits, underscore. -/
def wordChar (c : Char) : Bool := c.isAlphanum || c == '_'

/-- Regex `\d` (ASCII fragment). -/
def digitChar (c : Char) : Bool := c.isDigit

/-- Regex `.` with DOTALL off: any character except a newline. -/
def dotChar (c : Char) : Bool := !(c == '\n')

/-- ASCII lower-casing of one character (Python `str.lower` on ASCII input). -/
def lowerC (c : Char) : Char :=
  if 'A' ≤ c && c ≤ 'Z' then Char.ofNat (c.toNat + 32) else c

/-- Character comparison, case-insensitive when `ci` is true (re.IGNORECASE on
ASCII input). -/
def cEq (ci : Bool) (a b : Char) : Bool :=
  if ci then lowerC a == lowerC b else a == b

/-- Python `str.strip()` (ASCII whitespace). -/
def pyStrip (s : String) : String :=
  String.mk (((s.data.dropWhile spaceChar).reverse.dropWhile spaceChar).reverse)

/-- Python `str.lower()` (ASCII). -/
def strLower (s : String) : String := String.mk (s.data.map lowerC)

/-- Python `s[:n]` on strings (slice of the first `n` characters). -/
def takeChars (n : Nat) (s : String) : String := String.mk (s.data.take n)

/-- Python `code.split('\n')` on the underlying character list. -/
def splitOnNl : List Char → List (List Char)
  | [] => [[]]
  | c :: r =>
    match splitOnNl r with
    | [] => [[c]]          -- unreachable: splitOnNl never returns []
    | s :: ss => if c = '\n' then [] :: s :: ss else (c :: s) :: ss

/-- Python `code.split('\n')` as a list of strings. -/
def pyLines (code : String) : List String :=
  (splitOnNl code.data).map String.mk

/-- Python list slice `l[a:b]` (with the usual clipping behaviour). -/
def pySlice (l : List α) (a b : Nat) : List α := (l.take b).drop a

/-- Is `p` a prefix of the second list (Boolean, on characters)? -/
def isPfxOf : List Char → List Char → Bool
  | [], _ => true
  | _ :: _, [] => false
  | p :: ps, c :: cs => p == c && isPfxOf ps cs

/-- Python substring containment `needle in hay` on character lists. -/
def strContainsL : List Char → List Char → Bool
  | [], n => isPfxOf n []
  | c :: t, n => isPfxOf n (c :: t) || strContainsL t n

/-- Python substring containment `needle in hay` on strings. -/
def strContains (hay needle : String) : Bool := strContainsL hay.data needle.data

/-- Python `int(s)` on a string of decimal digits. -/
def natOfDigits (s : String) : Nat :=
  s.data.foldl (fun n c => n * 10 + (c.toNat - 48)) 0

/-- Python `s.isdigit()` (ASCII fragment): nonempty and all digits. -/
def pyIsDigit (s : String) : Bool := !s.data.isEmpty && s.data.all Char.isDigit

/-! ### A small regex engine for the fragment the source uses

The source's patterns consist of literal text, the classes `\w`, `\d`, `\s`,
`.` under greedy `+`/`*`, capturing groups, and (in the language-marker
pattern `:\s*$`) the MULTILINE end-of-line anchor.  `reMatch` is a
backtracking matcher in continuation-passing style whose alternative order
reproduces Python's leftmost, greedy-first match. -/

/-- Abstract syntax of the regex fragment used by the source. -/
inductive RE where
  | lit (s : String)            -- literal text
  | one (p : Char → Bool)       -- a single character of a class
  | rep1 (p : Char → Bool)      -- greedy `+` over a single-character class
  | rep0 (p : Char → Bool)      -- greedy `*` over a single-character class
  | grp (r : RE)                -- capturing group
  | cat (a b : RE)              -- concatenation
  | eol                         -- `$` with MULTILINE: end of input or before a newline

/-- Concatenation of a list of regex pieces. -/
def reCat (l : List RE) : RE := l.foldr RE.cat (RE.lit "")

/-- Strip a literal (with optional ASCII case-insensitivity) from the front of
the input, returning the remainder. -/
def stripPfx (ci : Bool) : List Char → List Char → Option (List Char)
  | [], l => some l
  | _ :: _, [] => none
  | p :: ps, c :: cs => if cEq ci p c then stripPfx ci ps cs else none

/-- Greedy repetition: consume characters of class `p`, preferring to consume
more, backtracking into `k` (the continuation receives the rest). -/
def repMatch (p : Char → Bool) (l : List Char) (k : List Char → Option A) :
    Option A :=
  match l with
  | [] => k []
  | c :: r =>
    if p c then
      match repMatch p r k with
      | some x => some x
      | none => k (c :: r)
    else k (c :: r)

/-- Backtracking matcher.  `reMatch ci r l gs k` matches `r` against a prefix
of `l` (with accumulated captures `gs`), calling `k rest gs'` on each
alternative in Python's preference order and returning the first success. -/
def reMatch (ci : Bool) : RE → List Char → List String →
    (List Char → List String → Option A) → Option A
  | .lit s, l, gs, k =>
    match stripPfx ci s.data l with
    | some r => k r gs
    | none => none
  | .one p, l, gs, k =>
    match l with
    | c :: r => if p c then k r gs else none
    | [] => none
  | .rep1 p, l, gs, k =>
    match l with
    | c :: r => if p c then repMatch p r (fun r2 => k r2 gs) else none
    | [] => none
  | .rep0 p, l, gs, k => repMatch p l (fun r2 => k r2 gs)
  | .grp r, l, gs, k =>
    reMatch ci r l gs
      (fun rest gs2 => k rest (gs2 ++ [String.mk (l.take (l.length - rest.length))]))
  | .cat a b, l, gs, k =>
    reMatch ci a l gs (fun rest gs2 => reMatch ci b rest gs2 k)
  | .eol, l, gs, k =>
    match l with
    | [] => k l gs
    | c :: _ => if c == '\n' then k l gs else none

/-- Python `re.search`: try a match at every start position, leftmost first;
returns the captured groups and the suffix after the match end. -/
def searchG (ci : Bool) (re : RE) : List Char → Option (List String × List Char)
  | [] => reMatch ci re [] [] (fun rest gs => some (gs, rest))
  | c :: t =>
    match reMatch ci re (c :: t) [] (fun rest gs => some (gs, rest)) with
    | some x => some x
    | none => searchG ci re t

/-- Python `re.findall` for a single-group pattern: non-overlapping matches
from the left, collecting group 1.  Structured with explicit fuel so that it
reduces definitionally; the wrapper supplies enough fuel, since every pattern
this is applied to consumes at least one character per match. -/
def findAllAux (re : RE) : Nat → List Char → List String
  | 0, _ => []
  | fuel + 1, l =>
    match searchG false re l with
    | none => []
    | some (gs, rest) =>
      if rest.length < l.length then gs.headD "" :: findAllAux re fuel rest
      else [gs.headD ""]

/-- Python `re.findall`, collecting group 1 of each non-overlapping match. -/
def findAllG (re : RE) (l : List Char) : List String := findAllAux re (l.length + 1) l

/-- First pattern of a list that matches (Python loop `for pattern: if
re.search(...)`), returning its groups. -/
def firstREMatch (ps : List RE) (l : List Char) : Option (List String) :=
  match ps with
  | [] => none
  | p :: rest =>
    match searchG false p l with
    | some (gs, _) => some gs
    | none => firstREMatch rest l

/-! ### The source's regex patterns -/

/-- Regex piece `(\w+Error)`: a word-character run that must end in `Error`. -/
def grpWordError : RE := .grp (.cat (.rep1 wordChar) (.lit "Error"))

/-- Regex piece `(\w+Exception)`. -/
def grpWordException : RE := .grp (.cat (.rep1 wordChar) (.lit "Exception"))

/-- Regex piece `(.+)`. -/
def grpAny : RE := .grp (.rep1 dotChar)

/-- Regex piece `(\d+)`. -/
def grpDigits : RE := .grp (.rep1 digitChar)

/-- `(\w+Error): (.+) at line (\d+)` -/
def patErrAtLine : RE := reCat [grpWordError, .lit ": ", grpAny, .lit " at line ", grpDigits]

/-- `(\w+Error): (.+)` -/
def patErrGeneric : RE := reCat [grpWordError, .lit ": ", grpAny]

/-- `(\w+Exception): (.+)` -/
def patExcGeneric : RE := reCat [grpWordException, .lit ": ", grpAny]

/-- `SyntaxError: (.+) at line (\d+)` -/
def patSynAtLine : RE := reCat [.lit "SyntaxError: ", grpAny, .lit " at line ", grpDigits]

/-- `File "(.+)", line (\d+), in (.+)\n\s*(.+)\n(\w+Error): (.+)` -/
def patTraceback : RE :=
  reCat [.lit "File \"", grpAny, .lit "\", line ", grpDigits, .lit ", in ", grpAny,
         .lit "\n", .rep0 spaceChar, grpAny, .lit "\n", grpWordError, .lit ": ", grpAny]

/-- `json\.decoder\.JSONDecodeError: (.+)` -/
def patJson : RE := reCat [.lit "json.decoder.JSONDecodeError: ", grpAny]

/-- `Exception in thread "(.+)" (\w+Exception): (.+) at (.+):(\d+)` -/
def patJavaThread : RE :=
  reCat [.lit "Exception in thread \"", grpAny, .lit "\" ", grpWordException,
         .lit ": ", grpAny, .lit " at ", grpAny, .lit ":", grpDigits]

/-- `ReferenceError: (.+) is not defined` -/
def patRefErr : RE := reCat [.lit "ReferenceError: ", grpAny, .lit " is not defined"]

/-- `TypeError: (.+)` -/
def patTypeErr : RE := reCat [.lit "TypeError: ", grpAny]

/-- `error: (.+) at line (\d+)` -/
def patCError : RE := reCat [.lit "error: ", grpAny, .lit " at line ", grpDigits]

/-- `segmentation fault` -/
def patSegfault : RE := .lit "segmentation fault"

/-! ### Data model (the source's dataclasses and enums) -/

/-- `ErrorSeverity` enum of the source. -/
inductive ErrorSeverity where
  | CRITICAL
  | HIGH
  | MEDIUM
  | LOW
deriving DecidableEq, Repr

/-- `ErrorClassification` enum of the source.  (The first Python member is
named `SYNTAX_K` here to stay clear of a Lean keyword.) -/
inductive ErrorClassification where
  | SYNTAX_K
  | RUNTIME
  | LOGICAL
  | SEMANTIC
  | UNKNOWN
deriving DecidableEq, Repr

/-- `ErrorInfo` dataclass. -/
structure ErrorInfo where
  error_type : String
  line_number : Option Nat
  variables_ : List String   -- `variables` in the source (a Lean keyword)
  full_message : String
  classification : ErrorClassification
deriving DecidableEq, Repr

/-- `CodeInfo` dataclass. -/
structure CodeInfo where
  language : String
  error_block : String
  error_lines : List String
  intent : String
deriving DecidableEq, Repr

/-- One entry of a `fixes` list (`{'title': ..., 'code': ..., 'explanation': ...}`). -/
structure FixEntry where
  title : String
  code : String
  explanation : String
deriving DecidableEq, Repr

/-- A rule-catalog template / heuristic recommendation bundle (the dict shape
shared by `RuleBasedSystem.rules` values and `analyze_complex_error`). -/
structure RuleTemplate where
  explanation : String
  severity : ErrorSeverity
  impact : String
  fixes : List FixEntry
  best_practices : List String
deriving DecidableEq, Repr

/-- `RecommendationResult` dataclass. -/
structure RecommendationResult where
  explanation : String
  severity : ErrorSeverity
  impact : String
  proposed_fixes : List FixEntry
  best_practices : List String
  priority_reasoning : String
deriving DecidableEq, Repr

/-- `ErrorClassification(value)`: conversion from the enum's string value.
Only "syntax" and "runtime" occur in the source's rule table. -/
def classificationOfString (s : String) : ErrorClassification :=
  if s == "syntax" then .SYNTAX_K
  else if s == "runtime" then .RUNTIME
  else if s == "logical" then .LOGICAL
  else if s == "semantic" then .SEMANTIC
  else .UNKNOWN

/-! ### ErrorLogAnalyzer -/

/-- A rule of `ErrorLogAnalyzer.error_patterns`: the dict key is the regex
source string (paired with its embedded `RE`), the value is the
`(language, classification)` pair. -/
abbrev LogRule := (String × RE) × (String × String)

/-- Python dict insertion: a duplicate key keeps its original position but
takes the new value. -/
def pyDictInsert (d : List LogRule) (kv : LogRule) : List LogRule :=
  if d.any (fun e => e.1.1 == kv.1.1) then
    d.map (fun e => if e.1.1 == kv.1.1 then (e.1, kv.2) else e)
  else d ++ [kv]

/-- The 13 key/value assignments of the `error_patterns` dict literal, in
source order.  The keys at source lines 50/62 and 52/59 are duplicated. -/
def error_pattern_assignments : List LogRule :=
  [ (("(\\w+Error): (.+) at line (\\d+)", patErrAtLine), ("python", "runtime")),
    (("(\\w+Error): (.+)", patErrGeneric), ("python", "runtime")),
    (("(\\w+Exception): (.+)", patExcGeneric), ("python", "runtime")),
    (("SyntaxError: (.+) at line (\\d+)", patSynAtLine), ("python", "syntax")),
    (("File \"(.+)\", line (\\d+), in (.+)\\n\\s*(.+)\\n(\\w+Error): (.+)", patTraceback),
      ("python", "runtime")),
    (("json\\.decoder\\.JSONDecodeError: (.+)", patJson), ("python", "runtime")),
    (("Exception in thread \"(.+)\" (\\w+Exception): (.+) at (.+):(\\d+)", patJavaThread),
      ("java", "runtime")),
    (("(\\w+Exception): (.+)", patExcGeneric), ("java", "runtime")),
    (("(\\w+Error): (.+) at line (\\d+)", patErrAtLine), ("javascript", "runtime")),
    (("ReferenceError: (.+) is not defined", patRefErr), ("javascript", "runtime")),
    (("TypeError: (.+)", patTypeErr), ("javascript", "runtime")),
    (("error: (.+) at line (\\d+)", patCError), ("c", "syntax")),
    (("segmentation fault", patSegfault), ("c", "runtime")) ]

/-- `self.error_patterns` with Python dict semantics applied: 11 rules in
first-insertion order, duplicated keys carrying their last-assigned value. -/
def error_patterns : List LogRule :=
  error_pattern_assignments.foldl pyDictInsert []

/-- The variable-name extraction patterns of `_extract_variables`. -/
def var_patterns : List RE :=
  [ reCat [.lit "\x27", .grp (.rep1 wordChar), .lit "\x27 is not defined"],
    reCat [.lit "\x27", .grp (.rep1 wordChar), .lit "\x27 has no attribute"],
    reCat [.lit "cannot access \x27", .grp (.rep1 wordChar), .lit "\x27"],
    reCat [.lit "variable \x27", .grp (.rep1 wordChar), .lit "\x27"],
    reCat [.lit "undefined variable \x27", .grp (.rep1 wordChar), .lit "\x27"] ]

/-- `_extract_variables`: findall every pattern, concatenate, deduplicate.
(The source deduplicates via `list(set(...))`, whose order Python leaves
unspecified; we keep first occurrences.  No theorem below depends on the
order of this list.) -/
def dedupAux (seen : List String) : List String → List String
  | [] => []
  | x :: xs => if seen.contains x then dedupAux seen xs else x :: dedupAux (x :: seen) xs

/-- Deduplication keeping first occurrences. -/
def dedupKeepFirst (l : List String) : List String := dedupAux [] l

def extract_variables (s : String) : List String :=
  dedupKeepFirst (var_patterns.foldl (fun acc p => acc ++ findAllG p s.data) [])

/-- The looser line-number patterns of `_extract_line_number`:
`line (\d+)`, `:(\d+):`, `at (\d+)`. -/
def line_patterns : List RE :=
  [ reCat [.lit "line ", grpDigits],
    reCat [.lit ":", grpDigits, .lit ":"],
    reCat [.lit "at ", grpDigits] ]

/-- `_extract_line_number`: first pattern that matches wins; its group 1 is
parsed as an integer. -/
def extract_line_number (s : String) : Option Nat :=
  match firstREMatch line_patterns s.data with
  | some gs => some (natOfDigits (gs.headD ""))
  | none => none

/-- The scan of `ErrorLogAnalyzer.analyze`'s for-loop: first rule whose
pattern matches (re.search with IGNORECASE) wins. -/
def firstRuleMatch (rules : List LogRule) (l : List Char) :
    Option (LogRule × List String) :=
  match rules with
  | [] => none
  | r :: rs =>
    match searchG true r.1.2 l with
    | some (gs, _) => some (r, gs)
    | none => firstRuleMatch rs l

/-- The first captured group that is a pure digit string
(`if group and group.isdigit(): line_number = int(group)`). -/
def firstDigitGroup : List String → Option Nat
  | [] => none
  | g :: gs => if pyIsDigit g then some (natOfDigits g) else firstDigitGroup gs

/-- `ErrorLogAnalyzer.analyze`, parameterized by the rule list it scans. -/
def analyzeWith (rules : List LogRule) (error_log : String) : ErrorInfo :=
  let s := pyStrip error_log
  match firstRuleMatch rules s.data with
  | some (r, gs) =>
    { error_type := gs.headD "UnknownError"
      line_number := firstDigitGroup gs
      variables_ := extract_variables s
      full_message := s
      classification := classificationOfString r.2.2 }
  | none =>
    { error_type := "UnknownError"
      line_number := extract_line_number s
      variables_ := extract_variables s
      full_message := s
      classification := .UNKNOWN }

/-- `ErrorLogAnalyzer.analyze` on the source's `error_patterns`. -/
def logAnalyze (error_log : String) : ErrorInfo :=
  analyzeWith error_patterns error_log

/-! ### StaticCodeAnalysis -/

/-- `self.language_patterns`: the language marker regexes, in declaration
order (searched with re.MULTILINE, case-sensitively). -/
def language_patterns : List (String × List RE) :=
  [ ("python",
      [ reCat [.lit "def", .rep1 spaceChar, .rep1 wordChar],          -- def\s+\w+
        reCat [.lit "import", .rep1 spaceChar, .rep1 wordChar],       -- import\s+\w+
        reCat [.lit "print", .rep0 spaceChar, .lit "("],              -- print\s*\(
        reCat [.lit ":", .rep0 spaceChar, .eol] ]),                   -- :\s*$
    ("java",
      [ reCat [.lit "public", .rep1 spaceChar, .lit "class"],
        .lit "System.out.print",
        reCat [.lit "public", .rep1 spaceChar, .lit "static", .rep1 spaceChar,
               .lit "void", .rep1 spaceChar, .lit "main"] ]),
    ("javascript",
      [ reCat [.lit "function", .rep1 spaceChar, .rep1 wordChar],
        .lit "console.log",
        reCat [.lit "var", .rep1 spaceChar, .rep1 wordChar],
        reCat [.lit "let", .rep1 spaceChar, .rep1 wordChar] ]),
    ("c",
      [ .lit "#include",
        reCat [.lit "int", .rep1 spaceChar, .lit "main"],
        .lit "printf" ]),
    ("cpp",
      [ .lit "#include",
        .lit "std::",
        reCat [.lit "cout", .rep0 spaceChar, .lit "<<"] ]) ]

/-- The loop body of `_detect_language`: number of marker patterns that
match, first language with at least one match wins. -/
def detectLangAux : List (String × List RE) → String → String
  | [], _ => "unknown"
  | (lang, ps) :: rest, code =>
    if 1 ≤ ps.countP (fun p => (searchG false p code.data).isSome) then lang
    else detectLangAux rest code

/-- `_detect_language`. -/
def detect_language (code : String) : String :=
  detectLangAux language_patterns code

/-- Python truthiness of the optional line number (`if not line_number`):
`None` and `0` are falsy. -/
def lineFalsy : Option Nat → Bool
  | none => true
  | some n => n == 0

/-- `_extract_error_lines`. -/
def extract_error_lines (code : String) (line_number : Option Nat) : List String :=
  if lineFalsy line_number then [(pyLines code).headD ""]
  else
    let n := line_number.getD 0
    let lines := pyLines code
    if n ≤ lines.length then pySlice lines (n - 2) (min lines.length (n + 1))
    else []

/-- The block-opening keywords of `_identify_error_block`. -/
def block_keywords : List String := ["def ", "class ", "for ", "while ", "if "]

/-- Does the stripped line contain a block-opening keyword
(`any(keyword in line for keyword in [...])` after `line = lines[i].strip()`)? -/
def keywordLine (line : String) : Bool :=
  block_keywords.any (fun kw => strContains (pyStrip line) kw)

/-- The backward scan `for i in range(start_line, -1, -1)`: the largest index
`≤ i` whose line contains a block keyword, if any. -/
def findBlockStart (lines : List String) : Nat → Option Nat
  | 0 => if keywordLine (lines.getD 0 "") then some 0 else none
  | i + 1 =>
    if keywordLine (lines.getD (i + 1) "") then some (i + 1)
    else findBlockStart lines i

/-- `_identify_error_block`. -/
def identify_error_block (code : String) (line_number : Option Nat) : String :=
  if lineFalsy line_number then takeChars 200 code
  else
    let n := line_number.getD 0
    let lines := pyLines code
    if n ≤ lines.length then
      let s0 := n - 1                                   -- max(0, line_number - 1)
      let start_line := (findBlockStart lines s0).getD s0
      let end_line := min lines.length (n + 5)
      String.intercalate "\n" (pySlice lines start_line end_line)
    else code

/-- `_determine_code_intent`. -/
def determine_code_intent (code_block : String) (language : String) : String :=
  let cl := pyStrip (strLower code_block)
  if strContains cl "def " || strContains cl "function " then "function definition"
  else if strContains cl "for " || strContains cl "while " then "loop"
  else if strContains cl "class " then "class definition"
  else if strContains cl "if " || strContains cl "elif " || strContains cl "else" then
    "conditional statement"
  else if strContains cl "=" && !(strContains cl "==") then "variable assignment"
  else if strContains cl "import " || strContains cl "#include" then
    "import/include statement"
  else "code execution"

/-- `StaticCodeAnalysis.analyze`. -/
def codeAnalyze (code : String) (error_info : ErrorInfo) : CodeInfo :=
  let language := detect_language code
  let error_lines := extract_error_lines code error_info.line_number
  let error_block := identify_error_block code error_info.line_number
  let intent := determine_code_intent error_block language
  { language := language
    error_block := error_block
    error_lines := error_lines
    intent := intent }

/-! ### RuleBasedSystem (the static catalog)

Each template below transcribes one entry of `RuleBasedSystem.rules`
verbatim (string escapes: `\x27` is an apostrophe, `\x7b`/`\x7d` are curly
braces). -/

/-- Catalog entry `('IndexError', 'python')`. -/
def tplIndexError : RuleTemplate :=
  { explanation := "An IndexError occurs when trying to access a list, tuple, or string index that doesn\x27t exist."
    severity := .HIGH
    impact := "This will halt program execution immediately and may cause data loss if not handled."
    fixes :=
      [ { title := "Bounds Checking"
          code := "if index < len(my_list):\n    value = my_list[index]"
          explanation := "Always check if the index is within valid range before accessing." },
        { title := "Use Enumerate"
          code := "for i, item in enumerate(my_list):\n    # Process item"
          explanation := "Use enumerate() to safely iterate with indices." } ]
    best_practices :=
      [ "Always validate array/list bounds before accessing elements",
        "Use len() function to check collection size",
        "Consider using try/except blocks for error handling" ] }

/-- Catalog entry `('NameError', 'python')`. -/
def tplNameError : RuleTemplate :=
  { explanation := "A NameError occurs when trying to use a variable or function name that hasn\x27t been defined."
    severity := .HIGH
    impact := "This prevents the code from running and indicates a missing variable definition."
    fixes :=
      [ { title := "Define Variable"
          code := "variable_name = initial_value"
          explanation := "Ensure the variable is defined before using it." },
        { title := "Check Imports"
          code := "from module import function_name"
          explanation := "Make sure required functions are properly imported." } ]
    best_practices :=
      [ "Define all variables before using them",
        "Check spelling of variable and function names",
        "Ensure proper import statements" ] }

/-- Catalog entry `('SyntaxError', 'python')`. -/
def tplSyntaxError : RuleTemplate :=
  { explanation := "A SyntaxError occurs when Python cannot parse the code due to incorrect syntax."
    severity := .CRITICAL
    impact := "The code cannot run at all until the syntax is fixed."
    fixes :=
      [ { title := "Check Indentation"
          code := "if condition:\n    statement  # Proper indentation"
          explanation := "Ensure consistent indentation (4 spaces recommended)." },
        { title := "Check Parentheses"
          code := "result = function(arg1, arg2)"
          explanation := "Make sure all parentheses, brackets, and braces are properly closed." } ]
    best_practices :=
      [ "Use consistent indentation (4 spaces)",
        "Match all opening and closing brackets/parentheses",
        "Use a code editor with syntax highlighting" ] }

/-- Catalog entry `('ZeroDivisionError', 'python')`. -/
def tplZeroDivisionError : RuleTemplate :=
  { explanation := "A ZeroDivisionError occurs when attempting to divide by zero."
    severity := .HIGH
    impact := "This will halt program execution and indicates improper input validation."
    fixes :=
      [ { title := "Check Divisor"
          code := "if divisor != 0:\n    result = numerator / divisor\nelse:\n    result = float(\x27inf\x27)"
          explanation := "Always check if the divisor is zero before performing division." },
        { title := "Use Try-Except"
          code := "try:\n    result = numerator / divisor\nexcept ZeroDivisionError:\n    result = None  # or handle appropriately"
          explanation := "Handle division by zero with exception handling." } ]
    best_practices :=
      [ "Validate inputs before mathematical operations",
        "Consider what should happen when division by zero occurs",
        "Use appropriate default values or error handling" ] }

/-- Catalog entry `('AttributeError', 'python')`. -/
def tplAttributeError : RuleTemplate :=
  { explanation := "An AttributeError occurs when trying to access an attribute or method that doesn\x27t exist on an object."
    severity := .HIGH
    impact := "This will crash the program and often indicates None values or incorrect object types."
    fixes :=
      [ { title := "None Check"
          code := "if obj is not None:\n    result = obj.attribute\nelse:\n    result = default_value"
          explanation := "Check if the object is None before accessing its attributes." },
        { title := "Hasattr Check"
          code := "if hasattr(obj, \x27attribute\x27):\n    result = obj.attribute\nelse:\n    result = default_value"
          explanation := "Use hasattr() to check if an attribute exists before accessing it." } ]
    best_practices :=
      [ "Always validate object state before accessing attributes",
        "Initialize objects properly in constructors",
        "Use getattr() with default values for optional attributes" ] }

/-- Catalog entry `('KeyError', 'python')`. -/
def tplKeyError : RuleTemplate :=
  { explanation := "A KeyError occurs when trying to access a dictionary key that doesn\x27t exist."
    severity := .HIGH
    impact := "This will halt execution and indicates missing data validation or incorrect key usage."
    fixes :=
      [ { title := "Key Check"
          code := "if key in dictionary:\n    value = dictionary[key]\nelse:\n    value = default_value"
          explanation := "Check if the key exists in the dictionary before accessing it." },
        { title := "Use Get Method"
          code := "value = dictionary.get(key, default_value)"
          explanation := "Use the get() method with a default value to safely access dictionary keys." } ]
    best_practices :=
      [ "Validate dictionary keys before access",
        "Use dict.get() method for safe key access",
        "Handle missing keys gracefully with appropriate defaults" ] }

/-- Catalog entry `('RecursionError', 'python')`. -/
def tplRecursionError : RuleTemplate :=
  { explanation := "A RecursionError occurs when the maximum recursion depth is exceeded, usually due to infinite recursion."
    severity := .HIGH
    impact := "This will crash the program and may consume excessive memory before failing."
    fixes :=
      [ { title := "Add Base Case"
          code := "def recursive_func(n):\n    if n <= 0:  # Base case\n        return 0\n    return n + recursive_func(n-1)"
          explanation := "Ensure your recursive function has a proper base case to terminate recursion." },
        { title := "Convert to Iterative"
          code := "def iterative_func(n):\n    result = 0\n    for i in range(1, n+1):\n        result += i\n    return result"
          explanation := "Consider converting recursive algorithms to iterative ones for large inputs." } ]
    best_practices :=
      [ "Always define clear base cases for recursive functions",
        "Consider iterative solutions for large datasets",
        "Use sys.setrecursionlimit() carefully if needed" ] }

/-- Catalog entry `('RuntimeError', 'python')`. -/
def tplRuntimeError : RuleTemplate :=
  { explanation := "A RuntimeError occurred, often related to async operations or system-level issues."
    severity := .HIGH
    impact := "This indicates improper usage of runtime features like async/await or system resources."
    fixes :=
      [ { title := "Proper Async Usage"
          code := "import asyncio\n\nasync def main():\n    result = await async_function()\n    return result\n\nasyncio.run(main())"
          explanation := "Use asyncio.run() or await keyword properly for coroutines." },
        { title := "Exception Handling"
          code := "try:\n    # Problematic operation\n    pass\nexcept RuntimeError as e:\n    print(f\"Runtime error: \x7be\x7d\")"
          explanation := "Handle runtime errors with specific exception catching." } ]
    best_practices :=
      [ "Use proper async/await patterns for coroutines",
        "Handle system-level errors appropriately",
        "Validate runtime conditions before operations" ] }

/-- Catalog entry `('JSONDecodeError', 'python')`. -/
def tplJSONDecodeError : RuleTemplate :=
  { explanation := "A JSONDecodeError occurs when trying to parse invalid JSON data."
    severity := .HIGH
    impact := "This will halt execution and indicates malformed or invalid JSON input."
    fixes :=
      [ { title := "Validate JSON"
          code := "import json\n\ntry:\n    data = json.loads(json_string)\nexcept json.JSONDecodeError as e:\n    print(f\"Invalid JSON: \x7be\x7d\")\n    data = \x7b\x7d"
          explanation := "Always wrap JSON parsing in try-except blocks to handle invalid data." },
        { title := "Pre-validate Format"
          code := "if json_string.strip().startswith((\x27\x7b\x27, \x27[\x27)):\n    data = json.loads(json_string)\nelse:\n    raise ValueError(\"Not valid JSON format\")"
          explanation := "Perform basic format validation before attempting to parse JSON." } ]
    best_practices :=
      [ "Always validate JSON input before parsing",
        "Use proper exception handling for JSON operations",
        "Provide meaningful error messages for invalid JSON" ] }

/-- Catalog entry `('NullPointerException', 'java')`. -/
def tplNullPointerException : RuleTemplate :=
  { explanation := "A NullPointerException occurs when trying to use a reference that points to no location in memory (null)."
    severity := .HIGH
    impact := "This will crash the program and may indicate improper object initialization."
    fixes :=
      [ { title := "Null Check"
          code := "if (object != null) \x7b\n    object.method();\n\x7d"
          explanation := "Always check for null before using an object reference." },
        { title := "Initialize Object"
          code := "MyObject obj = new MyObject();"
          explanation := "Ensure objects are properly initialized before use." } ]
    best_practices :=
      [ "Always initialize objects before using them",
        "Use null checks when objects might be null",
        "Consider using Optional<T> in Java 8+" ] }

/-- `RuleBasedSystem.rules`: the full catalog keyed by
`(error_type, language)` (no duplicate keys). -/
def catalog_rules : List ((String × String) × RuleTemplate) :=
  [ (("IndexError", "python"), tplIndexError),
    (("NameError", "python"), tplNameError),
    (("SyntaxError", "python"), tplSyntaxError),
    (("ZeroDivisionError", "python"), tplZeroDivisionError),
    (("AttributeError", "python"), tplAttributeError),
    (("KeyError", "python"), tplKeyError),
    (("RecursionError", "python"), tplRecursionError),
    (("RuntimeError", "python"), tplRuntimeError),
    (("JSONDecodeError", "python"), tplJSONDecodeError),
    (("NullPointerException", "java"), tplNullPointerException) ]

/-- Python `dict.get(key)` on an association list with unique keys. -/
def lookupKey (l : List ((String × String) × RuleTemplate)) (key : String × String) :
    Option RuleTemplate :=
  (l.find? (fun kv => kv.1 == key)).map (fun kv => kv.2)

/-- `RuleBasedSystem.get_recommendation`. -/
def get_recommendation (error_info : ErrorInfo) (code_info : CodeInfo) :
    Option RuleTemplate :=
  lookupKey catalog_rules (error_info.error_type, code_info.language)

/-! ### LanguageModelAnalyzer (heuristic fallback) -/

/-- The `severity_map` of `analyze_complex_error` (total over the enum, so
the dict-get default `MEDIUM` is unreachable). -/
def severity_map : ErrorClassification → ErrorSeverity
  | .SYNTAX_K => .CRITICAL
  | .RUNTIME => .HIGH
  | .LOGICAL => .MEDIUM
  | .SEMANTIC => .MEDIUM
  | .UNKNOWN => .MEDIUM

/-- `_generate_explanation`. -/
def generate_explanation (error_info : ErrorInfo) (code_info : CodeInfo) : String :=
  let base1 := "A " ++ error_info.error_type ++ " occurred"
  let base2 :=
    match error_info.line_number with
    | some n => if n == 0 then base1 else base1 ++ " at line " ++ toString n
    | none => base1
  let base3 :=
    if code_info.intent == "loop" then base2 ++ " within a loop structure"
    else if code_info.intent == "function definition" then
      base2 ++ " in a function definition"
    else if code_info.intent == "variable assignment" then
      base2 ++ " during variable assignment"
    else base2
  let base4 :=
    if error_info.classification == .RUNTIME then
      base3 ++ ". This is a runtime error that occurs during program execution"
    else if error_info.classification == .SYNTAX_K then
      base3 ++ ". This is a syntax error that prevents the code from running"
    else base3
  base4 ++ " in " ++ code_info.language ++ " code."

/-- `_assess_impact` (a total lookup keyed by severity; the dict-get default
is unreachable). -/
def assess_impact (error_info : ErrorInfo) (severity : ErrorSeverity) : String :=
  match severity with
  | .CRITICAL => "This will prevent the program from running entirely and must be fixed immediately."
  | .HIGH => "This will cause the program to crash and may result in data loss or unexpected behavior."
  | .MEDIUM => "This may cause incorrect results or unexpected behavior in certain conditions."
  | .LOW => "This is a minor issue that may affect code quality or performance."

/-- `_generate_fixes`. -/
def generate_fixes (error_info : ErrorInfo) (code_info : CodeInfo) : List FixEntry :=
  let fixes : List FixEntry :=
    if error_info.classification == .SYNTAX_K then
      [ { title := "Fix Syntax"
          code := "# Check for missing colons, parentheses, or indentation issues"
          explanation := "Review the syntax around the error line for common issues." } ]
    else if error_info.classification == .RUNTIME then
      [ { title := "Add Error Handling"
          code := "try:\n    # Problematic code here\nexcept Exception as e:\n    print(f\"Error: \x7be\x7d\")"
          explanation := "Wrap the problematic code in a try-except block to handle errors gracefully." } ]
    else []
  fixes ++ error_info.variables_.map (fun v =>
    { title := "Initialize " ++ v
      code := v ++ " = appropriate_initial_value"
      explanation := "Ensure the variable \"" ++ v ++ "\" is properly defined and initialized." })

/-- `_generate_best_practices`. -/
def generate_best_practices (error_info : ErrorInfo) (code_info : CodeInfo) :
    List String :=
  let practices : List String :=
    if code_info.language == "python" then
      [ "Follow PEP 8 style guidelines for Python code",
        "Use meaningful variable names",
        "Add docstrings to functions and classes" ]
    else if code_info.language == "java" then
      [ "Follow Java naming conventions",
        "Use proper exception handling",
        "Initialize objects before use" ]
    else []
  practices ++
    (if error_info.classification == .RUNTIME then
      ["Implement proper error handling and validation"]
    else if error_info.classification == .SYNTAX_K then
      ["Use an IDE with syntax highlighting and error detection"]
    else [])

/-- `LanguageModelAnalyzer.analyze_complex_error`. -/
def analyze_complex_error (error_info : ErrorInfo) (code_info : CodeInfo) :
    RuleTemplate :=
  let severity := severity_map error_info.classification
  { explanation := generate_explanation error_info code_info
    severity := severity
    impact := assess_impact error_info severity
    fixes := generate_fixes error_info code_info
    best_practices := generate_best_practices error_info code_info }

/-! ### CodeErrorRecommendationEngine (the pipeline) -/

/-- `_generate_priority_reasoning` (total lookup keyed by severity). -/
def generate_priority_reasoning : ErrorSeverity → String
  | .CRITICAL => "This error prevents code execution entirely and should be addressed immediately to restore functionality."
  | .HIGH => "This error causes program crashes and may lead to data loss, making it a high priority for resolution."
  | .MEDIUM => "This error may cause incorrect behavior under certain conditions and should be addressed in the next development cycle."
  | .LOW => "This is a code quality issue that can be addressed during routine maintenance or refactoring."

/-- `CodeErrorRecommendationEngine.analyze_error` (the `print` side effects of
the source are ignored). -/
def analyze_error (code : String) (error_log : String) : RecommendationResult :=
  let error_info := logAnalyze error_log
  let code_info := codeAnalyze code error_info
  match get_recommendation error_info code_info with
  | some rule_recommendation =>
    { explanation := rule_recommendation.explanation
      severity := rule_recommendation.severity
      impact := rule_recommendation.impact
      proposed_fixes := rule_recommendation.fixes
      best_practices := rule_recommendation.best_practices
      priority_reasoning := generate_priority_reasoning rule_recommendation.severity }
  | none =>
    let lm_recommendation := analyze_complex_error error_info code_info
    { explanation := lm_recommendation.explanation
      severity := lm_recommendation.severity
      impact := lm_recommendation.impact
      proposed_fixes := lm_recommendation.fixes
      best_practices := lm_recommendation.best_practices
      priority_reasoning := generate_priority_reasoning lm_recommendation.severity }

/-! ### Helper lemmas -/

theorem isPfxOf_append (n h t : List Char) (hp : isPfxOf n h = true) :
    isPfxOf n (h ++ t) = true := by
  induction n generalizing h with
  | nil => simp [isPfxOf]
  | cons a ns ih =>
    cases h with
    | nil => simp [isPfxOf] at hp
    | cons b hs =>
      simp only [isPfxOf, Bool.and_eq_true] at hp ⊢
      exact ⟨hp.1, ih hs hp.2⟩

theorem isPfxOf_self_append (n t : List Char) : isPfxOf n (n ++ t) = true := by
  induction n with
  | nil => simp [isPfxOf]
  | cons a ns ih => simp [isPfxOf, ih]

/-- Containment survives extending the haystack on the right. -/
theorem containsL_append_l (a b n : List Char) (h : strContainsL a n = true) :
    strContainsL (a ++ b) n = true := by
  induction a with
  | nil =>
    rw [strContainsL] at h
    cases n with
    | nil => rw [List.nil_append]; cases b with
      | nil => exact h
      | cons d ds => rw [strContainsL]; simp [isPfxOf]
    | cons c cs => simp [isPfxOf] at h
  | cons c cs ih =>
    rw [strContainsL] at h
    simp only [Bool.or_eq_true] at h
    rw [List.cons_append, strContainsL]
    simp only [Bool.or_eq_true]
    rcases h with h | h
    · exact Or.inl (isPfxOf_append _ _ _ h)
    · exact Or.inr (ih h)

/-- Containment survives extending the haystack on the left. -/
theorem containsL_append_r (a b n : List Char) (h : strContainsL b n = true) :
    strContainsL (a ++ b) n = true := by
  induction a with
  | nil => simpa using h
  | cons c cs ih =>
    rw [List.cons_append, strContainsL]
    simp only [Bool.or_eq_true]
    exact Or.inr ih

/-- A list contains itself followed by anything. -/
theorem containsL_self_append (n t : List Char) : strContainsL (n ++ t) n = true := by
  cases n with
  | nil =>
    rw [List.nil_append]
    cases t with
    | nil => decide
    | cons c cs => rw [strContainsL]; simp [isPfxOf]
  | cons c cs =>
    rw [List.cons_append, strContainsL]
    simp only [Bool.or_eq_true]
    exact Or.inl (isPfxOf_self_append _ _)

/-- String-level: `strContains (a ++ b) n` from containment in `a`. -/
theorem strContains_append_l (a b n : String) (h : strContains a n = true) :
    strContains (a ++ b) n = true := by
  unfold strContains at h ⊢
  rw [String.data_append]
  exact containsL_append_l _ _ _ h

/-- String-level: `strContains (a ++ b) n` from containment in `b`. -/
theorem strContains_append_r (a b n : String) (h : strContains b n = true) :
    strContains (a ++ b) n = true := by
  unfold strContains at h ⊢
  rw [String.data_append]
  exact containsL_append_r _ _ _ h

/-- A string of the form `a ++ n ++ b` contains `n`. -/
theorem strContains_sandwich (a n b : String) :
    strContains (a ++ n ++ b) n = true := by
  unfold strContains
  rw [String.data_append, String.data_append]
  rw [List.append_assoc]
  exact containsL_append_r _ _ _ (containsL_self_append _ _)

/-- If no rule's pattern matches, the scan returns nothing. -/
theorem firstRuleMatch_eq_none (rules : List LogRule) (l : List Char)
    (h : rules.all (fun r => (searchG true r.1.2 l).isNone) = true) :
    firstRuleMatch rules l = none := by
  induction rules with
  | nil => rfl
  | cons r rs ih =>
    simp only [List.all_cons, Bool.and_eq_true] at h
    rw [firstRuleMatch]
    have : searchG true r.1.2 l = none := by
      cases hs : searchG true r.1.2 l with
      | none => rfl
      | some x => rw [hs] at h; simp at h
    rw [this]
    exact ih h.2

/-- Swapping two adjacent rules that do not both match the input does not
change the result of the scan. -/
theorem firstRuleMatch_swap (pre post : List LogRule) (a b : LogRule)
    (l : List Char)
    (h : ¬((searchG true a.1.2 l).isSome = true ∧ (searchG true b.1.2 l).isSome = true)) :
    firstRuleMatch (pre ++ a :: b :: post) l =
      firstRuleMatch (pre ++ b :: a :: post) l := by
  induction pre with
  | nil =>
    simp only [List.nil_append, firstRuleMatch]
    cases ha : searchG true a.1.2 l with
    | none =>
      cases hb : searchG true b.1.2 l with
      | none => simp [ha, hb, firstRuleMatch]
      | some y => simp [ha, hb, firstRuleMatch]
    | some x =>
      cases hb : searchG true b.1.2 l with
      | none => simp [ha, hb, firstRuleMatch]
      | some y => exact absurd ⟨by rw [ha]; rfl, by rw [hb]; rfl⟩ h
  | cons r rs ih =>
    simp only [List.cons_append]
    rw [firstRuleMatch, firstRuleMatch]
    cases searchG true r.1.2 l with
    | some x => rfl
    | none => exact ih

/-- If every key of the association list differs from the query key, the
lookup misses. -/
theorem lookupKey_eq_none (l : List ((String × String) × RuleTemplate))
    (k : String × String) (h : l.all (fun kv => !(kv.1 == k)) = true) :
    lookupKey l k = none := by
  induction l with
  | nil => rfl
  | cons kv kvs ih =>
    simp only [List.all_cons, Bool.and_eq_true, Bool.not_eq_true'] at h
    unfold lookupKey
    rw [List.find?]
    rw [h.1]
    exact ih h.2

/-- If every key's error-type component differs from the query's error type,
the lookup misses whatever the language is. -/
theorem lookupKey_eq_none_of_error_type (l : List ((String × String) × RuleTemplate))
    (et lang : String) (h : l.all (fun kv => !(kv.1.1 == et)) = true) :
    lookupKey l (et, lang) = none := by
  induction l with
  | nil => rfl
  | cons kv kvs ih =>
    simp only [List.all_cons, Bool.and_eq_true, Bool.not_eq_true'] at h
    unfold lookupKey
    rw [List.find?]
    have hk : (kv.1 == (et, lang)) = false := by
      obtain ⟨⟨k1, k2⟩, v⟩ := kv
      have h1 : k1 ≠ et := by simpa [beq_eq_false_iff_ne] using h.1
      simp only [beq_eq_false_iff_ne]
      intro hc
      exact h1 (congrArg Prod.fst hc)
    rw [hk]
    exact ih h.2

/-- A successful lookup returns a member of the table's value column. -/
theorem lookupKey_mem (l : List ((String × String) × RuleTemplate))
    (k : String × String) (t : RuleTemplate) (h : lookupKey l k = some t) :
    ∃ kv, kv ∈ l ∧ kv.2 = t := by
  unfold lookupKey at h
  cases hf : l.find? (fun kv => kv.1 == k) with
  | none => rw [hf] at h; simp at h
  | some kv =>
    rw [hf] at h
    exact ⟨kv, List.mem_of_find?_eq_some hf, Option.some.inj h⟩

/-- A Python slice `l[a:b]` with an in-range upper bound is the list of
elements at indices `a, a+1, …, b-1`. -/
theorem pySlice_eq_range_map (l : List String) (a b : Nat) (hb : b ≤ l.length) :
    pySlice l a b = (List.range' a (b - a)).map (fun i => l.getD i "") := by
  apply List.ext_getElem
  · simp only [pySlice, List.length_drop, List.length_take, List.length_map,
      List.length_range']
    try omega
  · intro i h1 h2
    simp only [pySlice] at h1 ⊢
    have hlt : a + i < b := by
      simp [List.length_drop, List.length_take] at h1
      omega
    have hlen : a + i < l.length := by omega
    rw [List.getElem_drop, List.getElem_take]
    rw [List.getElem_map, List.getElem_range']
    have he : a + 1 * i = a + i := by omega
    rw [List.getD_eq_getElem _ _ (by omega : a + 1 * i < l.length)]
    simp [he]

/-- A successful backward block scan returns the closest keyword line at or
before the start index. -/
theorem findBlockStart_some (lines : List String) (i j : Nat)
    (h : findBlockStart lines i = some j) :
    j ≤ i ∧ keywordLine (lines.getD j "") = true ∧
      ∀ k, j < k → k ≤ i → keywordLine (lines.getD k "") = false := by
  induction i with
  | zero =>
    rw [findBlockStart] at h
    by_cases hk : keywordLine (lines.getD 0 "") = true
    · rw [if_pos hk] at h
      injection h with h
      subst h
      exact ⟨Nat.le_refl 0, hk, fun k hk1 hk2 => absurd (Nat.lt_of_lt_of_le hk1 hk2) (Nat.lt_irrefl _)⟩
    · rw [if_neg hk] at h
      simp at h
  | succ i ih =>
    rw [findBlockStart] at h
    by_cases hk : keywordLine (lines.getD (i + 1) "") = true
    · rw [if_pos hk] at h
      injection h with h
      subst h
      exact ⟨Nat.le_refl _, hk, fun k hk1 hk2 => absurd (Nat.lt_of_lt_of_le hk1 hk2) (Nat.lt_irrefl _)⟩
    · rw [if_neg hk] at h
      obtain ⟨h1, h2, h3⟩ := ih h
      refine ⟨Nat.le_succ_of_le h1, h2, fun k hk1 hk2 => ?_⟩
      rcases Nat.lt_or_ge k (i + 1) with hlt | hge
      · exact h3 k hk1 (Nat.lt_succ_iff.mp hlt)
      · have : k = i + 1 := Nat.le_antisymm hk2 hge
        subst this
        exact Bool.eq_false_iff.mpr hk

/-- A failed backward block scan means no line at or before the start index
contains a keyword. -/
theorem findBlockStart_none (lines : List String) (i : Nat)
    (h : findBlockStart lines i = none) :
    ∀ k, k ≤ i → keywordLine (lines.getD k "") = false := by
  induction i with
  | zero =>
    rw [findBlockStart] at h
    by_cases hk : keywordLine (lines.getD 0 "") = true
    · rw [if_pos hk] at h; simp at h
    · intro k hk1
      have : k = 0 := Nat.le_zero.mp hk1
      subst this
      exact Bool.eq_false_iff.mpr hk
  | succ i ih =>
    rw [findBlockStart] at h
    by_cases hk : keywordLine (lines.getD (i + 1) "") = true
    · rw [if_pos hk] at h; simp at h
    · rw [if_neg hk] at h
      intro k hk1
      rcases Nat.lt_or_ge k (i + 1) with hlt | hge
      · exact ih h k (Nat.lt_succ_iff.mp hlt)
      · have : k = i + 1 := Nat.le_antisymm hk1 hge
        subst this
        exact Bool.eq_false_iff.mpr hk

/-- A single-character class that rejects every character yields a pattern
that `re.search` never matches. -/
def neverRE : RE := .one (fun _ => false)

theorem searchG_neverRE (ci : Bool) (l : List Char) :
    searchG ci neverRE l = none := by
  induction l with
  | nil => rfl
  | cons c t ih =>
    rw [searchG]
    have : reMatch ci neverRE (c :: t) []
        (fun rest gs => some (gs, rest)) = (none : Option (List String × List Char)) := rfl
    rw [this]
    exact ih

theorem isPfxOf_refl (n : List Char) : isPfxOf n n = true := by
  induction n with
  | nil => rfl
  | cons a ns ih => simp [isPfxOf, ih]

theorem containsL_refl (n : List Char) : strContainsL n n = true := by
  cases n with
  | nil => decide
  | cons c cs => rw [strContainsL]; simp [isPfxOf_refl]

theorem strContains_refl (n : String) : strContains n n = true :=
  containsL_refl n.data

/-- Containment is preserved under a conditional whose branches both
contain the needle. -/
theorem strContains_ite (c : Prop) [Decidable c] (x y n : String)
    (hx : strContains x n = true) (hy : strContains y n = true) :
    strContains (if c then x else y) n = true := by
  split <;> assumption

/-- Python's `split('\n')` never returns an empty list. -/
theorem splitOnNl_ne_nil (l : List Char) : splitOnNl l ≠ [] := by
  cases l with
  | nil => simp [splitOnNl]
  | cons c r =>
    rw [splitOnNl]
    cases splitOnNl r with
    | nil => simp
    | cons s ss =>
      dsimp only
      split <;> simp

theorem pyLines_length_pos (code : String) : 0 < (pyLines code).length := by
  unfold pyLines
  rw [List.length_map]
  exact List.length_pos.mpr (splitOnNl_ne_nil code.data)

theorem line_clause_contains (b : String) (ln : Option Nat) (n : String)
    (hb : strContains b n = true) :
    strContains
      (match ln with
       | some k => if k == 0 then b else b ++ " at line " ++ toString k
       | none => b) n = true := by
  cases ln with
  | none => exact hb
  | some k =>
    exact strContains_ite _ _ _ _ hb
      (strContains_append_l _ _ _ (strContains_append_l _ _ _ hb))

theorem intent_clause_contains (b : String) (intent n : String)
    (hb : strContains b n = true) :
    strContains
      (if intent == "loop" then b ++ " within a loop structure"
       else if intent == "function definition" then b ++ " in a function definition"
       else if intent == "variable assignment" then b ++ " during variable assignment"
       else b) n = true := by
  refine strContains_ite _ _ _ _ (strContains_append_l _ _ _ hb) ?_
  refine strContains_ite _ _ _ _ (strContains_append_l _ _ _ hb) ?_
  exact strContains_ite _ _ _ _ (strContains_append_l _ _ _ hb) hb

theorem class_clause_contains (b : String) (cls : ErrorClassification) (n : String)
    (hb : strContains b n = true) :
    strContains
      (if cls == .RUNTIME then b ++ ". This is a runtime error that occurs during program execution"
       else if cls == .SYNTAX_K then b ++ ". This is a syntax error that prevents the code from running"
       else b) n = true := by
  refine strContains_ite _ _ _ _ (strContains_append_l _ _ _ hb) ?_
  exact strContains_ite _ _ _ _ (strContains_append_l _ _ _ hb) hb

/-- The heuristic explanation always mentions the record's error type and the
code context's language. -/
theorem generate_explanation_contains (e : ErrorInfo) (c : CodeInfo) :
    strContains (generate_explanation e c) e.error_type = true ∧
    strContains (generate_explanation e c) c.language = true := by
  unfold generate_explanation
  constructor
  · apply strContains_append_l
    apply strContains_append_l
    apply strContains_append_l
    apply class_clause_contains
    apply intent_clause_contains
    apply line_clause_contains
    exact strContains_append_l _ _ _ (strContains_append_r _ _ _ (strContains_refl _))
  · apply strContains_append_l
    exact strContains_append_r _ _ _ (strContains_refl _)

/-! ### Claim theorems -/

/-- Claim C6: in the heuristic path severity is the pure fixed mapping
Syntax→Critical, Runtime→High, Logical→Medium, Semantic→Medium,
Unknown→Medium of the record's classification, and in both pipeline branches
the priority reasoning is the pure fixed four-sentence function of the
resulting severity. -/
theorem severity_and_reasoning_pure :
    (severity_map .SYNTAX_K = .CRITICAL ∧ severity_map .RUNTIME = .HIGH ∧
     severity_map .LOGICAL = .MEDIUM ∧ severity_map .SEMANTIC = .MEDIUM ∧
     severity_map .UNKNOWN = .MEDIUM)
    ∧ (∀ e c, (analyze_complex_error e c).severity = severity_map e.classification)
    ∧ (generate_priority_reasoning .CRITICAL =
        "This error prevents code execution entirely and should be addressed immediately to restore functionality."
       ∧ generate_priority_reasoning .HIGH =
        "This error causes program crashes and may lead to data loss, making it a high priority for resolution."
       ∧ generate_priority_reasoning .MEDIUM =
        "This error may cause incorrect behavior under certain conditions and should be addressed in the next development cycle."
       ∧ generate_priority_reasoning .LOW =
        "This is a code quality issue that can be addressed during routine maintenance or refactoring.")
    ∧ (∀ code log, (analyze_error code log).priority_reasoning =
        generate_priority_reasoning (analyze_error code log).severity) := by
  refine ⟨⟨rfl, rfl, rfl, rfl, rfl⟩, fun e c => rfl, ⟨rfl, rfl, rfl, rfl⟩,
    fun code log => ?_⟩
  cases h : get_recommendation (logAnalyze log) (codeAnalyze code (logAnalyze log)) with
  | some t => simp [analyze_error, h]
  | none => simp [analyze_error, h]

/-- Claim C9: a line number equal to 0 (which the classifier can produce,
e.g. from the log "TypeError: bad at line 0") is treated by the code-context
analysis exactly like an absent line number: `contextLines` is the first
source line and `errorBlock` is the first 200 characters of the source. -/
theorem zero_line_number_like_absent :
    (∀ code : String,
      extract_error_lines code (some 0) = extract_error_lines code none ∧
      identify_error_block code (some 0) = identify_error_block code none ∧
      extract_error_lines code none = [(pyLines code).headD ""] ∧
      identify_error_block code none = takeChars 200 code)
    ∧ (logAnalyze "TypeError: bad at line 0").line_number = some 0 := by
  exact ⟨fun code => ⟨rfl, rfl, rfl, rfl⟩, by decide⟩

/-- Claim C10: the pipeline never produces severity Low: every catalog entry
has severity Critical or High, and the heuristic severity mapping never
yields Low. -/
theorem pipeline_severity_never_low (code log : String) :
    (analyze_error code log).severity ≠ .LOW := by
  cases h : get_recommendation (logAnalyze log) (codeAnalyze code (logAnalyze log)) with
  | some t =>
    obtain ⟨kv, hmem, hv⟩ := lookupKey_mem _ _ _ h
    have hall : ∀ kv ∈ catalog_rules, kv.2.severity ≠ ErrorSeverity.LOW := by decide
    simp only [analyze_error, h]
    rw [← hv]
    exact hall kv hmem
  | none =>
    simp only [analyze_error, h]
    cases hc : (logAnalyze log).classification <;>
      simp [analyze_complex_error, severity_map, hc]

/-- Claim C7: a line number strictly greater than the source's line count
makes the context extraction return an empty line list and the whole source
as error block, without failing. -/
theorem out_of_range_line_number (code : String) (n : Nat)
    (h : (pyLines code).length < n) :
    extract_error_lines code (some n) = [] ∧
    identify_error_block code (some n) = code := by
  have hpos : 0 < n := Nat.lt_of_le_of_lt (Nat.zero_le _) (Nat.lt_of_lt_of_le (pyLines_length_pos code) (Nat.le_of_lt h))
  have h0 : (n == 0) = false := by
    simp only [beq_eq_false_iff_ne]
    omega
  have h2 : ¬(n ≤ (pyLines code).length) := by omega
  constructor
  · unfold extract_error_lines
    simp only [lineFalsy, h0, Bool.false_eq_true, if_false, Option.getD_some]
    rw [if_neg h2]
  · unfold identify_error_block
    simp only [lineFalsy, h0, Bool.false_eq_true, if_false, Option.getD_some]
    rw [if_neg h2]

/-- Witness for C7 at a concrete input: two-line source, line number 5. -/
theorem out_of_range_line_number_witness :
    extract_error_lines "a\nb" (some 5) = [] ∧
    identify_error_block "a\nb" (some 5) = "a\nb" :=
  out_of_range_line_number "a\nb" 5 (by decide)

/-- Claim C4: for an in-range 1-based line number the context lines are the
source lines at the 0-based indices of the window `[n-2, n+1)` clipped to
valid bounds, and an absent line number yields the single first source
line. -/
theorem context_window (code : String) (n : Nat) (h1 : 1 ≤ n)
    (h2 : n ≤ (pyLines code).length) :
    extract_error_lines code (some n) =
      (List.range' (n - 2) (min (pyLines code).length (n + 1) - (n - 2))).map
        (fun i => (pyLines code).getD i "")
    ∧ extract_error_lines code none = [(pyLines code).headD ""] := by
  constructor
  · have h0 : (n == 0) = false := by
      simp only [beq_eq_false_iff_ne]
      omega
    unfold extract_error_lines
    simp only [lineFalsy, h0, Bool.false_eq_true, if_false, Option.getD_some]
    rw [if_pos h2]
    exact pySlice_eq_range_map _ _ _ (Nat.min_le_left _ _)
  · rfl

/-- Witness for C4 at a concrete input: four-line source, line number 3. -/
theorem context_window_witness :
    extract_error_lines "a\nb\nc\nd" (some 3) =
      (List.range' 1 (min 4 4 - 1)).map (fun i => (pyLines "a\nb\nc\nd").getD i "")
    ∧ extract_error_lines "a\nb\nc\nd" none = [(pyLines "a\nb\nc\nd").headD ""] := by
  have h := context_window "a\nb\nc\nd" 3 (by decide) (by decide)
  exact h

/-- The effective rule list of the `error_patterns` dict: 11 rules in
first-insertion order; the duplicated keys (source lines 50/62 and 52/59)
keep their first position and carry their last-assigned value. -/
theorem error_patterns_eval :
    error_patterns =
      [ (("(\\w+Error): (.+) at line (\\d+)", patErrAtLine), ("javascript", "runtime")),
        (("(\\w+Error): (.+)", patErrGeneric), ("python", "runtime")),
        (("(\\w+Exception): (.+)", patExcGeneric), ("java", "runtime")),
        (("SyntaxError: (.+) at line (\\d+)", patSynAtLine), ("python", "syntax")),
        (("File \"(.+)\", line (\\d+), in (.+)\\n\\s*(.+)\\n(\\w+Error): (.+)", patTraceback),
          ("python", "runtime")),
        (("json\\.decoder\\.JSONDecodeError: (.+)", patJson), ("python", "runtime")),
        (("Exception in thread \"(.+)\" (\\w+Exception): (.+) at (.+):(\\d+)", patJavaThread),
          ("java", "runtime")),
        (("ReferenceError: (.+) is not defined", patRefErr), ("javascript", "runtime")),
        (("TypeError: (.+)", patTypeErr), ("javascript", "runtime")),
        (("error: (.+) at line (\\d+)", patCError), ("c", "syntax")),
        (("segmentation fault", patSegfault), ("c", "runtime")) ] := by
  rfl

/-- Claim C8: for an in-range line number the error block is the join of the
lines from the block start to `lineNumber+5` clipped to the source length,
where the block start is the closest line at or before the error line whose
stripped text contains a block keyword, degrading to the error line itself
when the backward scan finds no keyword. -/
theorem block_extraction (code : String) (n : Nat) (h1 : 1 ≤ n)
    (h2 : n ≤ (pyLines code).length) :
    identify_error_block code (some n) =
      String.intercalate "\n"
        (pySlice (pyLines code) ((findBlockStart (pyLines code) (n - 1)).getD (n - 1))
          (min (pyLines code).length (n + 5)))
    ∧ (∀ j, findBlockStart (pyLines code) (n - 1) = some j →
        j ≤ n - 1 ∧ keywordLine ((pyLines code).getD j "") = true ∧
          ∀ k, j < k → k ≤ n - 1 → keywordLine ((pyLines code).getD k "") = false)
    ∧ (findBlockStart (pyLines code) (n - 1) = none →
        ∀ k, k ≤ n - 1 → keywordLine ((pyLines code).getD k "") = false) := by
  refine ⟨?_, fun j hj => findBlockStart_some _ _ _ hj,
    fun hn k hk => findBlockStart_none _ _ hn k hk⟩
  have h0 : (n == 0) = false := by
    simp only [beq_eq_false_iff_ne]
    omega
  unfold identify_error_block
  simp only [lineFalsy, h0, Bool.false_eq_true, if_false, Option.getD_some]
  rw [if_pos h2]

/-- Witness for C8: a three-line python snippet whose first line opens a
block, error on line 3. -/
theorem block_extraction_witness :
    identify_error_block "def f():\n    x = 1\n    y = 2" (some 3) =
      String.intercalate "\n"
        (pySlice (pyLines "def f():\n    x = 1\n    y = 2")
          ((findBlockStart (pyLines "def f():\n    x = 1\n    y = 2") 2).getD 2) (min 3 8))
    ∧ (0 ≤ 2 ∧ keywordLine ((pyLines "def f():\n    x = 1\n    y = 2").getD 0 "") = true ∧
        ∀ k, 0 < k → k ≤ 2 →
          keywordLine ((pyLines "def f():\n    x = 1\n    y = 2").getD k "") = false) := by
  have h := block_extraction "def f():\n    x = 1\n    y = 2" 3 (by decide) (by decide)
  exact ⟨h.1, h.2.1 0 (by decide)⟩

/-- Claim C5: the catalog lookup is an exact-key lookup on the pair
(errorType, language): a pair absent from the seed table yields no template
(and the pipeline then runs the heuristic recommender), while a present pair
makes the pipeline adopt the catalog template verbatim. -/
theorem catalog_exact_lookup :
    (∀ et lang : String,
      catalog_rules.all (fun kv => !(kv.1 == (et, lang))) = true →
      lookupKey catalog_rules (et, lang) = none)
    ∧ (∀ code log : String,
        (get_recommendation (logAnalyze log) (codeAnalyze code (logAnalyze log)) = none →
          analyze_error code log =
            { explanation :=
                (analyze_complex_error (logAnalyze log)
                  (codeAnalyze code (logAnalyze log))).explanation
              severity :=
                (analyze_complex_error (logAnalyze log)
                  (codeAnalyze code (logAnalyze log))).severity
              impact :=
                (analyze_complex_error (logAnalyze log)
                  (codeAnalyze code (logAnalyze log))).impact
              proposed_fixes :=
                (analyze_complex_error (logAnalyze log)
                  (codeAnalyze code (logAnalyze log))).fixes
              best_practices :=
                (analyze_complex_error (logAnalyze log)
                  (codeAnalyze code (logAnalyze log))).best_practices
              priority_reasoning :=
                generate_priority_reasoning
                  (analyze_complex_error (logAnalyze log)
                    (codeAnalyze code (logAnalyze log))).severity })
        ∧ (∀ t, get_recommendation (logAnalyze log) (codeAnalyze code (logAnalyze log)) = some t →
            analyze_error code log =
              { explanation := t.explanation
                severity := t.severity
                impact := t.impact
                proposed_fixes := t.fixes
                best_practices := t.best_practices
                priority_reasoning := generate_priority_reasoning t.severity })) := by
  refine ⟨fun et lang h => lookupKey_eq_none _ _ h,
    fun code log => ⟨fun h => ?_, fun t h => ?_⟩⟩
  · simp [analyze_error, h]
  · simp [analyze_error, h]

/-- Witness for C5: the absent pair (CustomWeirdError, python) misses, and
the pipeline adopts the seeded IndexError template verbatim for a python
snippet with an IndexError log. -/
theorem catalog_exact_lookup_witness :
    lookupKey catalog_rules ("CustomWeirdError", "python") = none ∧
    analyze_error "def f():\n    pass" "IndexError: list index out of range" =
      { explanation := tplIndexError.explanation
        severity := tplIndexError.severity
        impact := tplIndexError.impact
        proposed_fixes := tplIndexError.fixes
        best_practices := tplIndexError.best_practices
        priority_reasoning := generate_priority_reasoning tplIndexError.severity } :=
  ⟨catalog_exact_lookup.1 "CustomWeirdError" "python" (by decide),
   (catalog_exact_lookup.2 "def f():\n    pass" "IndexError: list index out of range").2
     tplIndexError (by decide)⟩

/-- Claim C3: on a log matched by none of the declared rules, the analyzer
returns the total fallback record: errorType "UnknownError", classification
Unknown, and line number recovered by the secondary looser patterns
(`line N`, `:N:`, `at N`) tried in order, `none` if none match. -/
theorem unmatched_log_fallback (log : String)
    (h : error_patterns.all (fun r => (searchG true r.1.2 (pyStrip log).data).isNone) = true) :
    logAnalyze log =
      { error_type := "UnknownError"
        line_number := extract_line_number (pyStrip log)
        variables_ := extract_variables (pyStrip log)
        full_message := pyStrip log
        classification := .UNKNOWN } := by
  simp only [logAnalyze, analyzeWith]
  rw [firstRuleMatch_eq_none _ _ (by simpa using h)]

/-- Witness for C3: "something bad at 42" matches no rule; the secondary
`at (\d+)` pattern recovers line 42. -/
theorem unmatched_log_fallback_witness :
    logAnalyze "something bad at 42" =
      { error_type := "UnknownError", line_number := some 42, variables_ := [],
        full_message := "something bad at 42", classification := .UNKNOWN } := by
  have h := unmatched_log_fallback "something bad at 42" (by decide)
  rw [h]
  decide

/-- Claim C2: the analyzer scans the (dict-effective) rule list in
declaration order and the first matching rule wins: whenever the leading
multi-field rule `(\w+Error): (.+) at line (\d+)` matches a log that the
generic `(\w+Error): (.+)` rule also matches, the returned record is the one
its groups determine (with its runtime classification); and swapping two
adjacent rules that do not both match an input leaves the result of the scan
unchanged on that input. -/
theorem first_match_wins :
    (∀ (log : String) (gs : List String) (rest : List Char),
      searchG true patErrAtLine (pyStrip log).data = some (gs, rest) →
      (searchG true patErrGeneric (pyStrip log).data).isSome = true →
      logAnalyze log =
        { error_type := gs.headD "UnknownError"
          line_number := firstDigitGroup gs
          variables_ := extract_variables (pyStrip log)
          full_message := pyStrip log
          classification := .RUNTIME })
    ∧ (∀ (pre post : List LogRule) (a b : LogRule) (log : String),
        ¬((searchG true a.1.2 (pyStrip log).data).isSome = true ∧
          (searchG true b.1.2 (pyStrip log).data).isSome = true) →
        analyzeWith (pre ++ a :: b :: post) log = analyzeWith (pre ++ b :: a :: post) log) := by
  constructor
  · intro log gs rest hm _hg
    unfold logAnalyze
    rw [error_patterns_eval]
    simp only [analyzeWith]
    rw [firstRuleMatch]
    dsimp only
    rw [hm]
    rfl
  · intro pre post a b log hnb
    simp only [analyzeWith]
    rw [firstRuleMatch_swap _ _ _ _ _ hnb]

/-- Witness for C2: a log matched by both the leading multi-field rule and
the generic rule resolves to the first; swapping a never-matching rule past
the generic rule does not change the scan result on a concrete log. -/
theorem first_match_wins_witness :
    logAnalyze "SyntaxError: missing colon at line 7" =
      { error_type := "SyntaxError", line_number := some 7, variables_ := [],
        full_message := "SyntaxError: missing colon at line 7",
        classification := .RUNTIME }
    ∧ analyzeWith
        ([] ++ (("never", neverRE), ("python", "runtime")) ::
          (("(\\w+Error): (.+)", patErrGeneric), ("python", "runtime")) :: []) "IndexError: x"
      = analyzeWith
        ([] ++ (("(\\w+Error): (.+)", patErrGeneric), ("python", "runtime")) ::
          (("never", neverRE), ("python", "runtime")) :: []) "IndexError: x" := by
  constructor
  · have h := first_match_wins.1 "SyntaxError: missing colon at line 7"
      ["SyntaxError", "missing colon", "7"] [] (by decide) (by decide)
    rw [h]
    decide
  · refine first_match_wins.2 [] [] _ _ "IndexError: x" ?_
    intro hc
    have h1 := hc.1
    rw [searchG_neverRE] at h1
    exact absurd h1 (by decide)

/-- Claim C1 counterexample: on the log "CustomWeirdError: something broke"
the pipeline's severity is not Medium (the log matches the generic error
rule, so the record's classification is Runtime, not Unknown). -/
theorem heuristic_fallback_counterexample :
    ¬((analyze_error "x = 1" "CustomWeirdError: something broke").severity =
        ErrorSeverity.MEDIUM) := by
  decide

/-- Claim C1 (amended): for the log "CustomWeirdError: something broke" and
any code, the catalog misses, the pipeline takes the heuristic fallback path,
the severity is High (the Runtime default — the log matches the generic
`(\w+Error): (.+)` rule), and the explanation contains the error type and
the detected (or "unknown") language name. -/
theorem heuristic_fallback_path (code : String) :
    get_recommendation (logAnalyze "CustomWeirdError: something broke")
      (codeAnalyze code (logAnalyze "CustomWeirdError: something broke")) = none
    ∧ (analyze_error code "CustomWeirdError: something broke").severity = .HIGH
    ∧ strContains (analyze_error code "CustomWeirdError: something broke").explanation
        "CustomWeirdError" = true
    ∧ strContains (analyze_error code "CustomWeirdError: something broke").explanation
        (detect_language code) = true := by
  have he : logAnalyze "CustomWeirdError: something broke" =
      { error_type := "CustomWeirdError", line_number := none, variables_ := [],
        full_message := "CustomWeirdError: something broke",
        classification := .RUNTIME } := by decide
  have hlk : get_recommendation (logAnalyze "CustomWeirdError: something broke")
      (codeAnalyze code (logAnalyze "CustomWeirdError: something broke")) = none := by
    unfold get_recommendation
    rw [he]
    exact lookupKey_eq_none_of_error_type _ _ _ (by decide)
  refine ⟨hlk, ?_, ?_, ?_⟩
  · simp only [analyze_error, hlk, analyze_complex_error]
    rw [he]
    rfl
  · simp only [analyze_error, hlk, analyze_complex_error]
    have h2 := (generate_explanation_contains
      (logAnalyze "CustomWeirdError: something broke")
      (codeAnalyze code (logAnalyze "CustomWeirdError: something broke"))).1
    rw [he] at h2
    exact h2
  · simp only [analyze_error, hlk, analyze_complex_error]
    exact (generate_explanation_contains
      (logAnalyze "CustomWeirdError: something broke")
      (codeAnalyze code (logAnalyze "CustomWeirdError: something broke"))).2
